import Mathlib

/-!
Verification of the scenario-driven stochastic-optimization pattern of the
MO-Book notebooks (pop-up shop, BIM microchip LP, LAD regression, OPF/SAA),
embedded shallowly over exact rationals.

Conventions: AMPL model files are embedded as feasibility predicates plus an
objective over `ℚ`; the pandas aggregation code is embedded as computable
functions over `Fin n → ℚ` columns; optimality of a point means feasibility
together with domination of every feasible point.
-/

namespace MoBook

/-! ## Pop-up shop: scenario data and the pandas EVM computation

Source: the pop-up shop notebook.  Scenario data is the pair of columns
`probability` and `demand`; price parameters are `r` (sales price),
`c` (unit cost), `w` (salvage value). -/

/-- Expected demand, `sum(df["probability"] * df["demand"])`. -/
def expectedDemand (n : ℕ) (p d : Fin n → ℚ) : ℚ :=
  ∑ s, p s * d s

/-- Per-scenario profit of the pandas EVM cell: with a fixed `order`,
`sold = min(demand, order)`, `salvage = order - sold`,
`profit = r*sold + w*salvage - c*order`. -/
def evmProfit (r c w order demand : ℚ) : ℚ :=
  r * min demand order + w * (order - min demand order) - c * order

/-- EVM, `sum(df["probability"] * df["profit"])` where the order placed is
the expected demand. -/
def EVM (n : ℕ) (r c w : ℚ) (p d : Fin n → ℚ) : ℚ :=
  ∑ s, p s * evmProfit r c w (expectedDemand n p d) (d s)

/-! ## Pop-up shop: the `pop.mod` AMPL model (EVSS)

Variables `x >= 0`, `y{S} >= 0`, `f{S}`; objective
`maximize EV: sum{s in S} p[s]*f[s]`; constraints
`profit`, `sales_less_than_order`, `sales_less_than_demand`. -/

/-- Feasible point of `pop.mod`: the variable bounds together with the three
scenario-indexed constraint families. -/
def popFeasible (n : ℕ) (r c w : ℚ) (d : Fin n → ℚ)
    (x : ℚ) (y f : Fin n → ℚ) : Prop :=
  0 ≤ x ∧ (∀ s, 0 ≤ y s) ∧
  (∀ s, f s = r * y s + w * (x - y s) - c * x) ∧
  (∀ s, y s ≤ x) ∧
  (∀ s, y s ≤ d s)

/-- Objective `EV` of `pop.mod` (also of `pop_evpi.mod`):
`sum{s in S} p[s] * f[s]`. -/
def popObj (n : ℕ) (p f : Fin n → ℚ) : ℚ :=
  ∑ s, p s * f s

/-- Optimal solution of `pop.mod`: feasible and dominating every feasible
point (a maximization). -/
def popOptimal (n : ℕ) (r c w : ℚ) (p d : Fin n → ℚ)
    (x : ℚ) (y f : Fin n → ℚ) : Prop :=
  popFeasible n r c w d x y f ∧
  ∀ x' y' f', popFeasible n r c w d x' y' f' →
    popObj n p f' ≤ popObj n p f

/-! ## Pop-up shop: the `pop_evpi.mod` AMPL model (EVPI)

Identical to `pop.mod` except that the order variable is scenario indexed:
`var x{S} >= 0`. -/

/-- Feasible point of `pop_evpi.mod`. -/
def evpiFeasible (n : ℕ) (r c w : ℚ) (d : Fin n → ℚ)
    (x y f : Fin n → ℚ) : Prop :=
  (∀ s, 0 ≤ x s) ∧ (∀ s, 0 ≤ y s) ∧
  (∀ s, f s = r * y s + w * (x s - y s) - c * x s) ∧
  (∀ s, y s ≤ x s) ∧
  (∀ s, y s ≤ d s)

/-- Optimal solution of `pop_evpi.mod`. -/
def evpiOptimal (n : ℕ) (r c w : ℚ) (p d : Fin n → ℚ)
    (x y f : Fin n → ℚ) : Prop :=
  evpiFeasible n r c w d x y f ∧
  ∀ x' y' f', evpiFeasible n r c w d x' y' f' →
    popObj n p f' ≤ popObj n p f

/-- Probability column of the pop-up shop instance: 0.10, 0.60, 0.30. -/
def popP : Fin 3 → ℚ := ![1/10, 3/5, 3/10]

/-- Demand column of the pop-up shop instance: 650, 400, 200. -/
def popD : Fin 3 → ℚ := ![650, 400, 200]

/-! ## Pop-up shop: the integer formulation stated in the notebook narrative

The notebook's mathematical formulation declares `x, y_s ∈ ℤ₊` while
`pop.mod` declares plain continuous `var x >= 0; var y{S} >= 0`.  The
integer formulation is embedded separately for the refinement claim. -/

/-- Integrality of a rational number. -/
def isIntegral (q : ℚ) : Prop :=
  ∃ z : ℤ, q = (z : ℚ)

/-- Feasible point of the integer program stated in the narrative:
the constraints of `pop.mod` together with `x ∈ ℤ₊` and `y_s ∈ ℤ₊`. -/
def popIntFeasible (n : ℕ) (r c w : ℚ) (d : Fin n → ℚ)
    (x : ℚ) (y f : Fin n → ℚ) : Prop :=
  popFeasible n r c w d x y f ∧ isIntegral x ∧ ∀ s, isIntegral (y s)

/-- Optimal solution of the narrative's integer program. -/
def popIntOptimal (n : ℕ) (r c w : ℚ) (p d : Fin n → ℚ)
    (x : ℚ) (y f : Fin n → ℚ) : Prop :=
  popIntFeasible n r c w d x y f ∧
  ∀ x' y' f', popIntFeasible n r c w d x' y' f' →
    popObj n p f' ≤ popObj n p f

/-! ## Scenario-set construction (the dict → DataFrame → `set_data` path)

Source: the pop-up shop notebook builds `scenarios` as a plain dict of
`name ↦ (probability, demand)` rows, transposes it into a DataFrame,
renames the columns to `p`/`d`, and hands it to `ampl.set_data`.  The whole
path is total: it is embedded as an `Except`-valued function so that the
claimed configuration-error channel can be stated. -/

/-- One row of the scenario dict: key and its two numeric fields. -/
structure ScenarioRow where
  name : String
  probability : ℚ
  demand : ℚ
  deriving DecidableEq

/-- One row of the renamed DataFrame handed to `ampl.set_data`:
columns renamed to `p` and `d`. -/
structure AmplRow where
  name : String
  p : ℚ
  d : ℚ
  deriving DecidableEq

/-- Column rename `{"demand": "d", "probability": "p"}` applied to a row. -/
def renameRow (row : ScenarioRow) : AmplRow :=
  ⟨row.name, row.probability, row.demand⟩

/-- Scenario-table construction as implemented: transpose, rename, load.
No validation of the probability column occurs anywhere on this path, so
the function never takes the error branch. -/
def buildScenarioTable (rows : List ScenarioRow) : Except String (List AmplRow) :=
  Except.ok (rows.map renameRow)

/-- Total probability mass of a scenario table. -/
def probTotal (rows : List ScenarioRow) : ℚ :=
  (rows.map ScenarioRow.probability).sum

/-- A scenario table whose probabilities sum to 0.9. -/
def badRows : List ScenarioRow :=
  [⟨"sunny skies", 1/2, 650⟩, ⟨"good weather", 2/5, 400⟩]

/-! ## Summary reporting after a solve

Source: after `ampl.solve()` the pop-up shop notebook prints the solver
termination condition, displays the solution table, and prints the expected
profit — in that order, unconditionally. -/

/-- Outcome of a solve call as read back by the notebook:
`solve_result` string and the objective value `EV`. -/
structure PopSolveOutcome where
  solve_result : String
  ev : ℚ
  deriving DecidableEq

/-- One printed line of the summary. -/
inductive ReportLine where
  | statusLine (status : String)
  | metricLine (label : String) (value : ℚ)
  deriving DecidableEq

/-- The summary as printed by the notebook cell: the status line followed by
the expected-profit metric line, with no conditional in between. -/
def popSummary (res : PopSolveOutcome) : List ReportLine :=
  [ReportLine.statusLine res.solve_result,
   ReportLine.metricLine "Expected Profit" res.ev]

/-- A solve outcome whose status is not optimal. -/
def failedOutcome : PopSolveOutcome :=
  ⟨"infeasible", 8920⟩

/-! ## BIM microchip LP and its dual

Source: `notebooks/02/bim.ipynb`, the inline primal model and
`bim_dual.mod`. -/

/-- Feasible point of the BIM primal LP. -/
def bimFeasible (x1 x2 : ℚ) : Prop :=
  0 ≤ x1 ∧ 0 ≤ x2 ∧ x1 ≤ 1000 ∧ x2 ≤ 1500 ∧
  x1 + x2 ≤ 1750 ∧ 4 * x1 + 2 * x2 ≤ 4800

/-- BIM primal objective `profit`. -/
def bimObj (x1 x2 : ℚ) : ℚ :=
  12 * x1 + 9 * x2

/-- Optimal solution of the BIM primal LP (a maximization). -/
def bimOptimal (x1 x2 : ℚ) : Prop :=
  bimFeasible x1 x2 ∧ ∀ x1' x2', bimFeasible x1' x2' → bimObj x1' x2' ≤ bimObj x1 x2

/-- Feasible point of `bim_dual.mod`. -/
def bimDualFeasible (y1 y2 y3 y4 : ℚ) : Prop :=
  0 ≤ y1 ∧ 0 ≤ y2 ∧ 0 ≤ y3 ∧ 0 ≤ y4 ∧
  12 ≤ y1 + y3 + 4 * y4 ∧ 9 ≤ y2 + y3 + 2 * y4

/-- Dual objective `obj`. -/
def bimDualObj (y1 y2 y3 y4 : ℚ) : ℚ :=
  1000 * y1 + 1500 * y2 + 1750 * y3 + 4800 * y4

/-- Optimal solution of the dual LP (a minimization). -/
def bimDualOptimal (y1 y2 y3 y4 : ℚ) : Prop :=
  bimDualFeasible y1 y2 y3 y4 ∧
  ∀ y1' y2' y3' y4', bimDualFeasible y1' y2' y3' y4' →
    bimDualObj y1 y2 y3 y4 ≤ bimDualObj y1' y2' y3' y4'

/-! ## Model instantiator: scenario-indexed constraint replication

The `{s in S}` suffix of the three `pop.mod` constraint families replicates
each template once per member of `S`; the objective `sum{s in S} p[s]*f[s]`
aggregates over the same set.  The replication is embedded as a function
from the scenario list to the list of concrete constraint instances. -/

/-- The three scenario-indexed constraint templates of `pop.mod`. -/
inductive PopConTemplate where
  | profitEq
  | salesLeOrder
  | salesLeDemand
  deriving DecidableEq

/-- A concrete constraint instance: template plus the scenario index it was
instantiated at. -/
structure PopConInstance (σ : Type) where
  template : PopConTemplate
  idx : σ
  deriving DecidableEq

/-- Instantiation of the scenario-indexed constraints of `pop.mod` over a
scenario list `S`: one instance of each template per member of `S`. -/
def instantiatePop (σ : Type) (S : List σ) : List (PopConInstance σ) :=
  (S.map fun s => ⟨.profitEq, s⟩) ++
  (S.map fun s => ⟨.salesLeOrder, s⟩) ++
  (S.map fun s => ⟨.salesLeDemand, s⟩)

/-- Meaning of one constraint instance at a point of `pop.mod`. -/
def interpPopCon (n : ℕ) (r c w : ℚ) (d : Fin n → ℚ)
    (x : ℚ) (y f : Fin n → ℚ) : PopConInstance (Fin n) → Prop
  | ⟨.profitEq, s⟩ => f s = r * y s + w * (x - y s) - c * x
  | ⟨.salesLeOrder, s⟩ => y s ≤ x
  | ⟨.salesLeDemand, s⟩ => y s ≤ d s

/-- Terms of the objective `sum{s in S} p[s]*f[s]`, each carrying the
scenario index it aggregates. -/
def popObjTerms (n : ℕ) (p f : Fin n → ℚ) (S : List (Fin n)) : List (Fin n × ℚ) :=
  S.map fun s => (s, p s * f s)

/-! ## OPF with linear decision rules: the SAA objective

Source: `opf_ldr.mod`.  `nT = card(T)` samples; the objective adds the
first-stage generation cost and `1/nT` times the summed per-sample
recourse cost. -/

/-- First-stage cost, `sum{i in V: is_generator[i] == 1} c[i] * p[i]`. -/
def opfFirstStage (nV : ℕ) (is_generator c p : Fin nV → ℚ) : ℚ :=
  ∑ i, if is_generator i = 1 then c i * p i else 0

/-- Recourse cost of one sample `t`,
`sum{i in V: energy_type[i] is coal or gas} 2*c[i]*alpha[i]*abs_total_imbalance[t]`. -/
def opfScenCost (nV : ℕ) (energy_type : Fin nV → String)
    (c alpha : Fin nV → ℚ) (imb : ℚ) : ℚ :=
  ∑ i, if energy_type i = "coal" ∨ energy_type i = "gas"
    then 2 * c i * alpha i * imb else 0

/-- The `opf_ldr.mod` objective `obj`, exactly as written:
first-stage cost plus `1/nT` times the double sum of recourse terms. -/
def opfObj (nT nV : ℕ) (is_generator c p alpha : Fin nV → ℚ)
    (energy_type : Fin nV → String) (abs_total_imbalance : Fin nT → ℚ) : ℚ :=
  (∑ i, if is_generator i = 1 then c i * p i else 0) +
  1 / (nT : ℚ) *
    ∑ t, ∑ i, if energy_type i = "coal" ∨ energy_type i = "gas"
      then 2 * c i * alpha i * abs_total_imbalance t else 0

/-! ## LAD regression

Source: `lad_regression.mod` and the `lad_regression` driver.  The model
file declares `var m{J} >= 0`, while the notebook's formulation text takes
the coefficients `m` to range over all reals. -/

/-- Feasible point of `lad_regression.mod`: the declared variable bounds
(including `m{J} >= 0`) and the `residuals` constraints. -/
def ladFeasible (n k : ℕ) (X : Fin n → Fin k → ℚ) (y : Fin n → ℚ)
    (ep em : Fin n → ℚ) (m : Fin k → ℚ) (b : ℚ) : Prop :=
  (∀ i, 0 ≤ ep i) ∧ (∀ i, 0 ≤ em i) ∧ (∀ j, 0 ≤ m j) ∧
  (∀ i, ep i - em i = y i - (∑ j, X i j * m j) - b)

/-- Objective `sum_of_abs_errors` of `lad_regression.mod`. -/
def ladObj (n : ℕ) (ep em : Fin n → ℚ) : ℚ :=
  ∑ i, (ep i + em i)

/-- Optimal solution of `lad_regression.mod` (a minimization). -/
def ladOptimal (n k : ℕ) (X : Fin n → Fin k → ℚ) (y : Fin n → ℚ)
    (ep em : Fin n → ℚ) (m : Fin k → ℚ) (b : ℚ) : Prop :=
  ladFeasible n k X y ep em m b ∧
  ∀ ep' em' m' b', ladFeasible n k X y ep' em' m' b' →
    ladObj n ep em ≤ ladObj n ep' em'

/-- Objective of the unconstrained LAD formulation stated in the notebook
text: `min sum |y_i - m^T X_i - b|` over real (unrestricted) `m` and `b`. -/
def ladTextObj (n k : ℕ) (X : Fin n → Fin k → ℚ) (y : Fin n → ℚ)
    (m : Fin k → ℚ) (b : ℚ) : ℚ :=
  ∑ i, |y i - (∑ j, X i j * m j) - b|

/-- Optimal coefficients of the unconstrained formulation of the text. -/
def ladTextOptimal (n k : ℕ) (X : Fin n → Fin k → ℚ) (y : Fin n → ℚ)
    (m : Fin k → ℚ) (b : ℚ) : Prop :=
  ∀ m' b', ladTextObj n k X y m b ≤ ladTextObj n k X y m' b'

/-- A two-point, one-feature dataset whose best unconstrained fit has a
negative slope: points (0, 0) and (1, -1). -/
def ladX : Fin 2 → Fin 1 → ℚ := ![![0], ![1]]

/-- Dependent values of the two-point dataset. -/
def ladY : Fin 2 → ℚ := ![0, -1]

/-! ## General lemmas about the pop-up shop aggregator -/

/-- The pandas EVM value is the `pop.mod` objective at the feasible point
that orders the expected demand, so it never exceeds the EVSS optimum. -/
theorem EVM_le_pop_optimum (n : ℕ) (r c w : ℚ) (p d : Fin n → ℚ)
    (hp : ∀ s, 0 ≤ p s)
    (x : ℚ) (y f : Fin n → ℚ) (h : popOptimal n r c w p d x y f) :
    EVM n r c w p d ≤ popObj n p f := by
  obtain ⟨⟨hx, hy, hf, hyx, hyd⟩, hdom⟩ := h
  have hd : ∀ s, 0 ≤ d s := fun s => le_trans (hy s) (hyd s)
  have hD0 : 0 ≤ expectedDemand n p d :=
    Finset.sum_nonneg fun s _ => mul_nonneg (hp s) (hd s)
  have hfeas : popFeasible n r c w d (expectedDemand n p d)
      (fun s => min (d s) (expectedDemand n p d))
      (fun s => r * min (d s) (expectedDemand n p d) +
        w * (expectedDemand n p d - min (d s) (expectedDemand n p d)) -
        c * expectedDemand n p d) := by
    exact ⟨hD0, fun s => le_min (hd s) hD0, fun s => rfl,
      fun s => min_le_right _ _, fun s => min_le_left _ _⟩
  exact le_trans (le_of_eq rfl) (hdom _ _ _ hfeas)

/-- Any here-and-now feasible point is perfect-information feasible with the
same objective, so the EVSS optimum never exceeds the EVPI optimum. -/
theorem pop_optimum_le_evpi_optimum (n : ℕ) (r c w : ℚ) (p d : Fin n → ℚ)
    (x : ℚ) (y f : Fin n → ℚ) (h : popOptimal n r c w p d x y f)
    (xs ys fs : Fin n → ℚ) (h2 : evpiOptimal n r c w p d xs ys fs) :
    popObj n p f ≤ popObj n p fs := by
  obtain ⟨⟨hx, hy, hf, hyx, hyd⟩, _⟩ := h
  exact h2.2 (fun _ => x) y f ⟨fun _ => hx, hy, hf, hyx, hyd⟩

/-- Objective bound for the pop-up shop instance of `pop.mod`. -/
theorem pop_bound_concrete (x : ℚ) (y f : Fin 3 → ℚ)
    (h : popFeasible 3 40 12 2 popD x y f) :
    popObj 3 popP f ≤ 8920 := by
  obtain ⟨hx, hy, hf, hyx, hyd⟩ := h
  have h0 := hf 0; have h1 := hf 1; have h2 := hf 2
  have hy0 := hy 0; have hy1 := hy 1; have hy2 := hy 2
  have hyx0 := hyx 0; have hyx1 := hyx 1; have hyx2 := hyx 2
  have hyd0 := hyd 0; have hyd1 := hyd 1; have hyd2 := hyd 2
  simp [popD] at hyd0 hyd1 hyd2
  simp [popObj, popP, Fin.sum_univ_three]
  norm_num
  linarith

/-- The point `x = 400` with sales `(400, 400, 200)` is optimal for the
pop-up shop instance of `pop.mod`, with objective 8920. -/
theorem pop_point_optimal :
    popOptimal 3 40 12 2 popP popD 400 ![400, 400, 200] ![11200, 11200, 3600] := by
  constructor
  · refine ⟨by norm_num, ?_, ?_, ?_, ?_⟩ <;>
      intro s <;> fin_cases s <;> norm_num [popD]
  · intro x' y' f' hfeas
    have := pop_bound_concrete x' y' f' hfeas
    simp [popObj, popP, Fin.sum_univ_three] at this ⊢
    norm_num
    linarith

/-- Objective bound for the pop-up shop instance of `pop_evpi.mod`. -/
theorem evpi_bound_concrete (x y f : Fin 3 → ℚ)
    (h : evpiFeasible 3 40 12 2 popD x y f) :
    popObj 3 popP f ≤ 10220 := by
  obtain ⟨hx, hy, hf, hyx, hyd⟩ := h
  have h0 := hf 0; have h1 := hf 1; have h2 := hf 2
  have hy0 := hy 0; have hy1 := hy 1; have hy2 := hy 2
  have hyx0 := hyx 0; have hyx1 := hyx 1; have hyx2 := hyx 2
  have hyd0 := hyd 0; have hyd1 := hyd 1; have hyd2 := hyd 2
  simp [popD] at hyd0 hyd1 hyd2
  simp [popObj, popP, Fin.sum_univ_three]
  norm_num
  linarith

/-- The hindsight orders `(650, 400, 200)` are optimal for the pop-up shop
instance of `pop_evpi.mod`, with objective 10220. -/
theorem evpi_point_optimal :
    evpiOptimal 3 40 12 2 popP popD ![650, 400, 200] ![650, 400, 200]
      ![18200, 11200, 5600] := by
  constructor
  · refine ⟨?_, ?_, ?_, ?_, ?_⟩ <;>
      intro s <;> fin_cases s <;> norm_num [popD]
  · intro x' y' f' hfeas
    have := evpi_bound_concrete x' y' f' hfeas
    simp [popObj, popP, Fin.sum_univ_three] at this ⊢
    norm_num
    linarith

/-- The pandas EVM computation on the pop-up shop columns yields 8339. -/
theorem EVM_concrete : EVM 3 40 12 2 popP popD = 8339 := by
  simp [EVM, evmProfit, expectedDemand, popP, popD, Fin.sum_univ_three, min_def]
  norm_num

/-- C1: for every valid scenario set (non-negative probabilities summing
to 1) the aggregated metrics satisfy EVM ≤ EVSS ≤ EVPI, so VSS and VPI are
non-negative; and on the pop-up shop input (demands 650/400/200 with
probabilities 0.10/0.60/0.30, prices r = 40, c = 12, w = 2) the computed
values are EVM = 8339, EVSS = 8920, EVPI = 10220, VSS = 581, VPI = 1300. -/
theorem evm_le_evss_le_evpi
    (n : ℕ) (r c w : ℚ) (p d : Fin n → ℚ)
    (hp : ∀ s, 0 ≤ p s) (hsum : ∑ s, p s = 1)
    (x : ℚ) (y f : Fin n → ℚ) (hevss : popOptimal n r c w p d x y f)
    (xs ys fs : Fin n → ℚ) (hevpi : evpiOptimal n r c w p d xs ys fs)
    (x3 : ℚ) (y3 f3 : Fin 3 → ℚ) (hpop3 : popOptimal 3 40 12 2 popP popD x3 y3 f3)
    (xs3 ys3 fs3 : Fin 3 → ℚ)
    (hevpi3 : evpiOptimal 3 40 12 2 popP popD xs3 ys3 fs3) :
    EVM n r c w p d ≤ popObj n p f ∧
    popObj n p f ≤ popObj n p fs ∧
    0 ≤ popObj n p f - EVM n r c w p d ∧
    0 ≤ popObj n p fs - popObj n p f ∧
    EVM 3 40 12 2 popP popD = 8339 ∧
    popObj 3 popP f3 = 8920 ∧
    popObj 3 popP fs3 = 10220 ∧
    popObj 3 popP f3 - EVM 3 40 12 2 popP popD = 581 ∧
    popObj 3 popP fs3 - popObj 3 popP f3 = 1300 := by
  have h1 := EVM_le_pop_optimum n r c w p d hp x y f hevss
  have h2 := pop_optimum_le_evpi_optimum n r c w p d x y f hevss xs ys fs hevpi
  have h3 : popObj 3 popP f3 = 8920 := by
    refine le_antisymm (pop_bound_concrete x3 y3 f3 hpop3.1) ?_
    have := hpop3.2 400 ![400, 400, 200] ![11200, 11200, 3600]
      pop_point_optimal.1
    calc (8920 : ℚ) = popObj 3 popP ![11200, 11200, 3600] := by
          simp [popObj, popP, Fin.sum_univ_three]; norm_num
      _ ≤ popObj 3 popP f3 := this
  have h4 : popObj 3 popP fs3 = 10220 := by
    refine le_antisymm (evpi_bound_concrete xs3 ys3 fs3 hevpi3.1) ?_
    have := hevpi3.2 ![650, 400, 200] ![650, 400, 200] ![18200, 11200, 5600]
      evpi_point_optimal.1
    calc (10220 : ℚ) = popObj 3 popP ![18200, 11200, 5600] := by
          simp [popObj, popP, Fin.sum_univ_three]; norm_num
      _ ≤ popObj 3 popP fs3 := this
  refine ⟨h1, h2, by linarith, by linarith, EVM_concrete, h3, h4, ?_, ?_⟩
  · rw [h3, EVM_concrete]; norm_num
  · rw [h3, h4]; norm_num

/-- Witness for `evm_le_evss_le_evpi` at the pop-up shop instance. -/
theorem evm_le_evss_le_evpi_witness :
    EVM 3 40 12 2 popP popD ≤ popObj 3 popP ![11200, 11200, 3600] :=
  (evm_le_evss_le_evpi 3 40 12 2 popP popD
    (by intro s; fin_cases s <;> norm_num [popP])
    (by simp [popP, Fin.sum_univ_three]; norm_num)
    400 ![400, 400, 200] ![11200, 11200, 3600] pop_point_optimal
    ![650, 400, 200] ![650, 400, 200] ![18200, 11200, 5600] evpi_point_optimal
    400 ![400, 400, 200] ![11200, 11200, 3600] pop_point_optimal
    ![650, 400, 200] ![650, 400, 200] ![18200, 11200, 5600]
    evpi_point_optimal).1

/-! ## BIM microchip LP: optimality, uniqueness, strong duality -/

/-- The point `(650, 1100)` is optimal for the BIM primal LP. -/
theorem bim_point_optimal : bimOptimal 650 1100 := by
  refine ⟨by norm_num [bimFeasible], ?_⟩
  rintro x1' x2' ⟨h0, h1, h2, h3, h4, h5⟩
  simp [bimObj]
  linarith

/-- Every optimal solution of the BIM primal LP is `(650, 1100)` with
objective value 17700. -/
theorem bim_optimal_unique (x1 x2 : ℚ) (h : bimOptimal x1 x2) :
    x1 = 650 ∧ x2 = 1100 ∧ bimObj x1 x2 = 17700 := by
  obtain ⟨⟨h0, h1, h2, h3, h4, h5⟩, hdom⟩ := h
  have hub : bimObj x1 x2 ≤ 17700 := by simp [bimObj]; linarith
  have hlb : (17700 : ℚ) ≤ bimObj x1 x2 := by
    have := hdom 650 1100 bim_point_optimal.1
    simp [bimObj] at this ⊢
    linarith
  have hval : bimObj x1 x2 = 17700 := le_antisymm hub hlb
  simp [bimObj] at hval
  refine ⟨by linarith, by linarith, by simp [bimObj]; linarith⟩

/-- The point `(0, 0, 6, 3/2)` is optimal for `bim_dual.mod`. -/
theorem bim_dual_point_optimal : bimDualOptimal 0 0 6 (3/2) := by
  refine ⟨by norm_num [bimDualFeasible], ?_⟩
  rintro y1' y2' y3' y4' ⟨h0, h1, h2, h3, h4, h5⟩
  simp [bimDualObj]
  linarith

/-- Every optimal solution of `bim_dual.mod` has objective value 17700. -/
theorem bim_dual_value (y1 y2 y3 y4 : ℚ) (h : bimDualOptimal y1 y2 y3 y4) :
    bimDualObj y1 y2 y3 y4 = 17700 := by
  obtain ⟨⟨h0, h1, h2, h3, h4, h5⟩, hdom⟩ := h
  have hub : bimDualObj y1 y2 y3 y4 ≤ 17700 := by
    have := hdom 0 0 6 (3/2) bim_dual_point_optimal.1
    simp [bimDualObj] at this ⊢
    linarith
  have hlb : (17700 : ℚ) ≤ bimDualObj y1 y2 y3 y4 := by
    simp [bimDualObj]; linarith
  exact le_antisymm hub hlb

/-- C4: the BIM microchip LP has the unique optimum `x = (650, 1100)` with
objective 17700, and the associated dual LP also has optimal value 17700
(strong duality); both optima are attained. -/
theorem bim_primal_dual_17700
    (x1 x2 y1 y2 y3 y4 : ℚ)
    (hp : bimOptimal x1 x2) (hd : bimDualOptimal y1 y2 y3 y4) :
    x1 = 650 ∧ x2 = 1100 ∧ bimObj x1 x2 = 17700 ∧
    bimDualObj y1 y2 y3 y4 = 17700 ∧
    bimOptimal 650 1100 ∧ bimDualOptimal 0 0 6 (3/2) := by
  obtain ⟨e1, e2, e3⟩ := bim_optimal_unique x1 x2 hp
  exact ⟨e1, e2, e3, bim_dual_value y1 y2 y3 y4 hd,
    bim_point_optimal, bim_dual_point_optimal⟩

/-- Witness for `bim_primal_dual_17700` at the optimal primal and dual
points. -/
theorem bim_primal_dual_17700_witness :
    bimObj 650 1100 = 17700 ∧ bimDualObj 0 0 6 (3/2) = 17700 :=
  ⟨(bim_primal_dual_17700 650 1100 0 0 6 (3/2)
      bim_point_optimal bim_dual_point_optimal).2.2.1,
   (bim_primal_dual_17700 650 1100 0 0 6 (3/2)
      bim_point_optimal bim_dual_point_optimal).2.2.2.1⟩

/-- C8: two solves of the same bound model agree: any two optimal solutions
of the pop-up shop model have the same objective value, and any two optimal
solutions of the BIM LP (whose optimum is unique) agree on the objective
value and on every variable value. -/
theorem solve_twice_agrees
    (x1 x2 x1' x2' : ℚ) (h : bimOptimal x1 x2) (h' : bimOptimal x1' x2')
    (n : ℕ) (r c w : ℚ) (p d : Fin n → ℚ)
    (x : ℚ) (y f : Fin n → ℚ) (hs : popOptimal n r c w p d x y f)
    (x' : ℚ) (y' f' : Fin n → ℚ) (hs' : popOptimal n r c w p d x' y' f') :
    bimObj x1 x2 = bimObj x1' x2' ∧ x1 = x1' ∧ x2 = x2' ∧
    popObj n p f = popObj n p f' := by
  obtain ⟨e1, e2, e3⟩ := bim_optimal_unique x1 x2 h
  obtain ⟨e1', e2', e3'⟩ := bim_optimal_unique x1' x2' h'
  refine ⟨by rw [e3, e3'], by rw [e1, e1'], by rw [e2, e2'], ?_⟩
  exact le_antisymm (hs'.2 x y f hs.1) (hs.2 x' y' f' hs'.1)

/-- Witness for `solve_twice_agrees`: the BIM optimum solved twice and the
pop-up shop optimum solved twice. -/
theorem solve_twice_agrees_witness :
    bimObj 650 1100 = bimObj 650 1100 ∧
    popObj 3 popP ![11200, 11200, 3600] = popObj 3 popP ![11200, 11200, 3600] := by
  have h := solve_twice_agrees 650 1100 650 1100 bim_point_optimal
    bim_point_optimal 3 40 12 2 popP popD
    400 ![400, 400, 200] ![11200, 11200, 3600] pop_point_optimal
    400 ![400, 400, 200] ![11200, 11200, 3600] pop_point_optimal
  exact ⟨h.1, h.2.2.2⟩

/-! ## Degenerate single-scenario sets -/

/-- On a one-scenario set with probability 1 the pandas EVM value is
`28 * d 0` (at the pop-up shop prices 40/12/2). -/
theorem EVM_singleton (p d : Fin 1 → ℚ) (hp : p 0 = 1) :
    EVM 1 40 12 2 p d = 28 * d 0 := by
  simp [EVM, evmProfit, expectedDemand, Fin.sum_univ_one, hp, min_self]
  ring

/-- On a one-scenario set with probability 1 every `pop.mod` optimum has
objective `28 * d 0`. -/
theorem pop_singleton_value (p d : Fin 1 → ℚ) (hp : p 0 = 1)
    (x : ℚ) (y f : Fin 1 → ℚ) (h : popOptimal 1 40 12 2 p d x y f) :
    popObj 1 p f = 28 * d 0 := by
  obtain ⟨⟨hx, hy, hf, hyx, hyd⟩, hdom⟩ := h
  have hd0 : 0 ≤ d 0 := le_trans (hy 0) (hyd 0)
  have hub : popObj 1 p f ≤ 28 * d 0 := by
    have h0 := hf 0; have h1 := hy 0; have h2 := hyx 0; have h3 := hyd 0
    simp [popObj, Fin.sum_univ_one, hp]
    linarith
  have hfeas : popFeasible 1 40 12 2 d (d 0) (fun _ => d 0)
      (fun _ => 28 * d 0) := by
    refine ⟨hd0, fun _ => hd0, fun s => ?_, fun _ => le_refl _, fun s => ?_⟩
    · ring
    · rw [Subsingleton.elim s 0]
  have hlb := hdom (d 0) _ _ hfeas
  simp [popObj, Fin.sum_univ_one, hp] at hlb hub ⊢
  linarith

/-- On a one-scenario set with probability 1 every `pop_evpi.mod` optimum
has objective `28 * d 0`. -/
theorem evpi_singleton_value (p d : Fin 1 → ℚ) (hp : p 0 = 1)
    (x y f : Fin 1 → ℚ) (h : evpiOptimal 1 40 12 2 p d x y f) :
    popObj 1 p f = 28 * d 0 := by
  obtain ⟨⟨hx, hy, hf, hyx, hyd⟩, hdom⟩ := h
  have hd0 : 0 ≤ d 0 := le_trans (hy 0) (hyd 0)
  have hub : popObj 1 p f ≤ 28 * d 0 := by
    have h0 := hf 0; have h1 := hy 0; have h2 := hyx 0; have h3 := hyd 0
    simp [popObj, Fin.sum_univ_one, hp]
    linarith
  have hfeas : evpiFeasible 1 40 12 2 d (fun _ => d 0) (fun _ => d 0)
      (fun _ => 28 * d 0) := by
    refine ⟨fun _ => hd0, fun _ => hd0, fun s => ?_, fun _ => le_refl _, fun s => ?_⟩
    · ring
    · rw [Subsingleton.elim s 0]
  have hlb := hdom _ _ _ hfeas
  simp [popObj, Fin.sum_univ_one, hp] at hlb hub ⊢
  linarith

/-- C6: on every degenerate scenario set with exactly one scenario (of
probability 1) the three metrics coincide, EVM = EVSS = EVPI, and hence
VSS = VPI = 0. -/
theorem singleton_metrics_coincide
    (p d : Fin 1 → ℚ) (hp : p 0 = 1)
    (x : ℚ) (y f : Fin 1 → ℚ) (hevss : popOptimal 1 40 12 2 p d x y f)
    (xs ys fs : Fin 1 → ℚ) (hevpi : evpiOptimal 1 40 12 2 p d xs ys fs) :
    EVM 1 40 12 2 p d = popObj 1 p f ∧
    popObj 1 p f = popObj 1 p fs ∧
    popObj 1 p f - EVM 1 40 12 2 p d = 0 ∧
    popObj 1 p fs - popObj 1 p f = 0 := by
  have h1 := EVM_singleton p d hp
  have h2 := pop_singleton_value p d hp x y f hevss
  have h3 := evpi_singleton_value p d hp xs ys fs hevpi
  refine ⟨by rw [h1, h2], by rw [h2, h3], by rw [h1, h2]; ring, by rw [h2, h3]; ring⟩

/-- Optimality of the obvious point for the one-scenario instance with
demand 100, used as the witness input. -/
theorem pop_singleton_point_optimal :
    popOptimal 1 40 12 2 ![1] ![100] 100 ![100] ![2800] := by
  constructor
  · refine ⟨by norm_num, ?_, ?_, ?_, ?_⟩ <;>
      intro s <;> fin_cases s <;> norm_num
  · intro x' y' f' ⟨hx, hy, hf, hyx, hyd⟩
    have h0 := hf 0; have h1 := hy 0; have h2 := hyx 0; have h3 := hyd 0
    simp at h3
    simp [popObj, Fin.sum_univ_one]
    linarith

/-- Optimality of the obvious point for the one-scenario instance of the
perfect-information model with demand 100. -/
theorem evpi_singleton_point_optimal :
    evpiOptimal 1 40 12 2 ![1] ![100] ![100] ![100] ![2800] := by
  constructor
  · refine ⟨?_, ?_, ?_, ?_, ?_⟩ <;>
      intro s <;> fin_cases s <;> norm_num
  · intro x' y' f' ⟨hx, hy, hf, hyx, hyd⟩
    have h0 := hf 0; have h1 := hy 0; have h2 := hyx 0; have h3 := hyd 0
    simp at h3
    simp [popObj, Fin.sum_univ_one]
    linarith

/-- Witness for `singleton_metrics_coincide` on the one-scenario set with
demand 100. -/
theorem singleton_metrics_coincide_witness :
    EVM 1 40 12 2 ![1] ![100] = popObj 1 ![1] ![2800] :=
  (singleton_metrics_coincide ![1] ![100] (by norm_num)
    100 ![100] ![2800] pop_singleton_point_optimal
    ![100] ![100] ![2800] evpi_singleton_point_optimal).1

/-! ## Relaxation vs. the narrative's integer formulation -/

/-- The optimal point of the continuous relaxation is feasible for the
narrative's integer program. -/
theorem pop_int_point_feasible :
    popIntFeasible 3 40 12 2 popD 400 ![400, 400, 200] ![11200, 11200, 3600] := by
  refine ⟨pop_point_optimal.1, ⟨400, by norm_num⟩, ?_⟩
  intro s; fin_cases s
  · exact ⟨400, by norm_num⟩
  · exact ⟨400, by norm_num⟩
  · exact ⟨200, by norm_num⟩

/-- C10: `pop.mod` declares `x` and `y` continuous although the narrative's
formulation is integer; on the given demand data the continuous relaxation
attains the integral optimum `x = 400` with value 8920, and the integer
program has the same optimal value 8920, so the two formulations agree on
this instance. -/
theorem pop_relaxation_attains_integer_optimum
    (x : ℚ) (y f : Fin 3 → ℚ) (hlp : popOptimal 3 40 12 2 popP popD x y f)
    (xi : ℚ) (yi fi : Fin 3 → ℚ)
    (hip : popIntOptimal 3 40 12 2 popP popD xi yi fi) :
    popObj 3 popP f = 8920 ∧
    popObj 3 popP fi = 8920 ∧
    popIntFeasible 3 40 12 2 popD 400 ![400, 400, 200] ![11200, 11200, 3600] ∧
    popOptimal 3 40 12 2 popP popD 400 ![400, 400, 200] ![11200, 11200, 3600] := by
  have hval : popObj 3 popP f = 8920 := by
    refine le_antisymm (pop_bound_concrete x y f hlp.1) ?_
    have := hlp.2 400 ![400, 400, 200] ![11200, 11200, 3600] pop_point_optimal.1
    calc (8920 : ℚ) = popObj 3 popP ![11200, 11200, 3600] := by
          simp [popObj, popP, Fin.sum_univ_three]; norm_num
      _ ≤ popObj 3 popP f := this
  have hvali : popObj 3 popP fi = 8920 := by
    refine le_antisymm (pop_bound_concrete xi yi fi hip.1.1) ?_
    have := hip.2 400 ![400, 400, 200] ![11200, 11200, 3600] pop_int_point_feasible
    calc (8920 : ℚ) = popObj 3 popP ![11200, 11200, 3600] := by
          simp [popObj, popP, Fin.sum_univ_three]; norm_num
      _ ≤ popObj 3 popP fi := this
  exact ⟨hval, hvali, pop_int_point_feasible, pop_point_optimal⟩

/-- Optimality of the integral point for the narrative's integer program,
used by the witness. -/
theorem pop_int_point_optimal :
    popIntOptimal 3 40 12 2 popP popD 400 ![400, 400, 200] ![11200, 11200, 3600] :=
  ⟨pop_int_point_feasible,
   fun x' y' f' h => pop_point_optimal.2 x' y' f' h.1⟩

/-- Witness for `pop_relaxation_attains_integer_optimum` at the optimal
relaxation point and the optimal integer point. -/
theorem pop_relaxation_attains_integer_optimum_witness :
    popObj 3 popP ![11200, 11200, 3600] = 8920 :=
  (pop_relaxation_attains_integer_optimum
    400 ![400, 400, 200] ![11200, 11200, 3600] pop_point_optimal
    400 ![400, 400, 200] ![11200, 11200, 3600] pop_int_point_optimal).1

/-! ## Scenario-set construction: no validation happens -/

/-- Counterexample to C2 as stated: the scenario table whose probabilities
sum to 0.9 (outside the 1e-6 tolerance) is constructed successfully — no
configuration error is raised — and its weights are passed through
unchanged rather than normalized. -/
theorem scenario_weights_unvalidated_cx :
    probTotal badRows = 9/10 ∧
    1 - probTotal badRows > 1/1000000 ∧
    buildScenarioTable badRows = Except.ok (badRows.map renameRow) ∧
    ¬ ∃ e, buildScenarioTable badRows = Except.error e := by
  refine ⟨?_, ?_, rfl, ?_⟩
  · norm_num [probTotal, badRows]
  · norm_num [probTotal, badRows]
  · rintro ⟨e, he⟩
    simp [buildScenarioTable] at he

/-- C2 amended: the scenario-set construction path performs no validation of
the probability weights: for every input table it succeeds, and it neither
normalizes nor otherwise alters the probability column. -/
theorem scenario_construction_never_errors (rows : List ScenarioRow) :
    buildScenarioTable rows = Except.ok (rows.map renameRow) ∧
    (rows.map renameRow).map AmplRow.p = rows.map ScenarioRow.probability := by
  refine ⟨rfl, ?_⟩
  simp [renameRow]

/-! ## Summary reporting: metrics are printed unconditionally -/

/-- Counterexample to C3 as stated: for a solve outcome with a non-optimal
status, the summary still contains the expected-profit metric line — the
metric is neither omitted nor flagged. -/
theorem report_metric_on_failure_cx :
    failedOutcome.solve_result ≠ "solved" ∧
    ReportLine.metricLine "Expected Profit" failedOutcome.ev ∈
      popSummary failedOutcome := by
  refine ⟨by decide, ?_⟩
  simp [popSummary]

/-- C3 amended: the summary always states the solver status alongside the
computed metric, but the metric line is printed unconditionally: a
non-optimal solve status does not cause it to be omitted or flagged. -/
theorem report_status_stated_metric_unconditional (res : PopSolveOutcome) :
    ReportLine.statusLine res.solve_result ∈ popSummary res ∧
    ReportLine.metricLine "Expected Profit" res.ev ∈ popSummary res := by
  constructor <;> simp [popSummary]

/-! ## SAA: identical weights 1/T -/

/-- C7: in the `opf_ldr.mod` SAA objective every sampled scenario `t` is
weighted by exactly `1/nT`, so the recourse part of the objective is the
empirical average of the per-scenario recourse costs. -/
theorem saa_equal_weights (nT nV : ℕ) (is_generator c p alpha : Fin nV → ℚ)
    (energy_type : Fin nV → String) (abs_total_imbalance : Fin nT → ℚ) :
    opfObj nT nV is_generator c p alpha energy_type abs_total_imbalance =
      opfFirstStage nV is_generator c p +
        ∑ t, 1 / (nT : ℚ) *
          opfScenCost nV energy_type c alpha (abs_total_imbalance t) ∧
    opfObj nT nV is_generator c p alpha energy_type abs_total_imbalance =
      opfFirstStage nV is_generator c p +
        (∑ t, opfScenCost nV energy_type c alpha (abs_total_imbalance t)) /
          (nT : ℚ) := by
  unfold opfObj opfFirstStage opfScenCost
  constructor
  · rw [Finset.mul_sum]
  · rw [one_div, inv_mul_eq_div]

/-! ## Model instantiator: exact scenario replication -/

/-- Counting one template's replicas: each instance list contributes the
count of the scenario in `S` for its own template and nothing for others. -/
theorem count_template_map (σ : Type) [DecidableEq σ] (S : List σ)
    (t t0 : PopConTemplate) (s : σ) :
    (S.map fun s' => (⟨t0, s'⟩ : PopConInstance σ)).count ⟨t, s⟩ =
      if t = t0 then S.count s else 0 := by
  by_cases h : t = t0
  · subst h
    rw [if_pos rfl]
    exact List.count_map_of_injective S _ (fun a b hab => by injection hab) s
  · rw [if_neg h, List.count_eq_zero]
    intro hm
    obtain ⟨s', _, he⟩ := List.mem_map.mp hm
    injection he with h1 h2
    exact h h1.symm

/-- Projecting the scenario index back out of one template's replicas. -/
theorem map_idx_mk (σ : Type) (t : PopConTemplate) (S : List σ) :
    (S.map fun s => (⟨t, s⟩ : PopConInstance σ)).map PopConInstance.idx = S := by
  rw [List.map_map]
  exact List.map_id S

/-- The scenario indices of the instantiated constraints are exactly three
copies of the input sequence. -/
theorem instantiatePop_idx (σ : Type) (S : List σ) :
    (instantiatePop σ S).map PopConInstance.idx = S ++ S ++ S := by
  simp only [instantiatePop, List.map_append, map_idx_mk]

/-- C5: constraint replication is exact — on a duplicate-free scenario
sequence each scenario-indexed template of `pop.mod` is instantiated exactly
once per scenario and never for a scenario outside the sequence; the set of
scenario indices underlying the constraints equals the input set and equals
the index set of the probability-weighted objective terms; the instantiated
constraints mean exactly the scenario-indexed part of `pop.mod` feasibility;
and summing the objective terms gives the `EV` objective. -/
theorem scenario_replication_exact
    (σ : Type) [DecidableEq σ] (S : List σ) (hS : S.Nodup)
    (n : ℕ) (r c w x : ℚ) (p d y f : Fin n → ℚ) :
    (∀ t : PopConTemplate, ∀ s : σ, s ∈ S →
       (instantiatePop σ S).count ⟨t, s⟩ = 1) ∧
    (∀ t : PopConTemplate, ∀ s : σ, s ∉ S →
       (instantiatePop σ S).count ⟨t, s⟩ = 0) ∧
    ((instantiatePop σ S).map PopConInstance.idx).toFinset = S.toFinset ∧
    ((popObjTerms n p f (List.finRange n)).map Prod.fst).toFinset =
      ((instantiatePop (Fin n) (List.finRange n)).map PopConInstance.idx).toFinset ∧
    ((∀ con ∈ instantiatePop (Fin n) (List.finRange n),
        interpPopCon n r c w d x y f con) ↔
      ((∀ s, f s = r * y s + w * (x - y s) - c * x) ∧
       (∀ s, y s ≤ x) ∧ (∀ s, y s ≤ d s))) ∧
    ((popObjTerms n p f (List.finRange n)).map Prod.snd).sum = popObj n p f := by
  refine ⟨?_, ?_, ?_, ?_, ?_, ?_⟩
  · intro t s hs
    have hc := List.count_eq_one_of_mem hS hs
    simp [instantiatePop, List.count_append, count_template_map, hc]
    cases t <;> simp
  · intro t s hs
    have hc := List.count_eq_zero_of_not_mem hs
    simp [instantiatePop, List.count_append, count_template_map, hc]
  · rw [instantiatePop_idx]
    simp [List.toFinset_append]
  · rw [instantiatePop_idx]
    simp only [List.toFinset_append, Finset.union_self]
    rw [popObjTerms, List.map_map]
    rw [show (Prod.fst ∘ fun s => (s, p s * f s)) = id from rfl, List.map_id]
  · constructor
    · intro h
      refine ⟨fun s => h ⟨.profitEq, s⟩ ?_, fun s => h ⟨.salesLeOrder, s⟩ ?_,
        fun s => h ⟨.salesLeDemand, s⟩ ?_⟩ <;>
        simp [instantiatePop, List.mem_finRange]
    · rintro ⟨h1, h2, h3⟩ con hcon
      simp only [instantiatePop, List.mem_append, List.mem_map] at hcon
      rcases hcon with (⟨s, _, rfl⟩ | ⟨s, _, rfl⟩) | ⟨s, _, rfl⟩
      · exact h1 s
      · exact h2 s
      · exact h3 s
  · rw [popObjTerms, List.map_map, popObj, Fin.sum_univ_def]
    rfl

/-- Witness for `scenario_replication_exact` on the three-scenario pop-up
shop index set. -/
theorem scenario_replication_exact_witness :
    (instantiatePop (Fin 3) (List.finRange 3)).count
      ⟨PopConTemplate.profitEq, 0⟩ = 1 :=
  (scenario_replication_exact (Fin 3) (List.finRange 3) (List.nodup_finRange 3)
    3 40 12 2 400 popP popD ![400, 400, 200] ![11200, 11200, 3600]).1
    PopConTemplate.profitEq 0 (List.mem_finRange 0)

/-! ## LAD regression: the model constrains slopes to be non-negative -/

/-- Lower bound for `lad_regression.mod` on the two-point dataset: every
feasible point has objective at least `1 + m 0`. -/
theorem lad_concrete_bound (ep em : Fin 2 → ℚ) (m : Fin 1 → ℚ) (b : ℚ)
    (h : ladFeasible 2 1 ladX ladY ep em m b) :
    1 + m 0 ≤ ladObj 2 ep em := by
  obtain ⟨hep, hem, hm, hres⟩ := h
  have h0 := hres 0
  have h1 := hres 1
  simp [ladX, ladY, Fin.sum_univ_one] at h0 h1
  have e0 := hep 0; have e1 := hep 1
  have f0 := hem 0; have f1 := hem 1
  simp [ladObj, Fin.sum_univ_two]
  linarith

/-- The point with slope 0 and intercept -1/2 is optimal for
`lad_regression.mod` on the two-point dataset, with objective 1. -/
theorem lad_concrete_point_optimal :
    ladOptimal 2 1 ladX ladY ![1/2, 0] ![0, 1/2] ![0] (-1/2) := by
  constructor
  · refine ⟨?_, ?_, ?_, ?_⟩ <;>
      intro i <;> fin_cases i <;> norm_num [ladX, ladY, Fin.sum_univ_one]
  · intro ep' em' m' b' hfeas
    have hb := lad_concrete_bound ep' em' m' b' hfeas
    have hm0 := hfeas.2.2.1 0
    simp [ladObj, Fin.sum_univ_two] at hb ⊢
    linarith

/-- C9: every solution of `lad_regression.mod` has non-negative slope
coefficients (the model declares `var m{J} >= 0`), unlike the unconstrained
formulation of the accompanying text; on the two-point dataset with
best-fit slope -1 the model's optimum has objective 1 and slope 0 while
the text's unconstrained optimum has objective 0 and slope -1. -/
theorem lad_slopes_nonneg_and_diverge
    (n k : ℕ) (X : Fin n → Fin k → ℚ) (y : Fin n → ℚ)
    (ep em : Fin n → ℚ) (m : Fin k → ℚ) (b : ℚ)
    (h : ladOptimal n k X y ep em m b) :
    (∀ j, 0 ≤ m j) ∧
    (∀ ep' em' m' b', ladOptimal 2 1 ladX ladY ep' em' m' b' →
        ladObj 2 ep' em' = 1 ∧ m' 0 = 0) ∧
    ladTextObj 2 1 ladX ladY ![-1] 0 = 0 ∧
    (∀ m' b', ladTextOptimal 2 1 ladX ladY m' b' → m' 0 = -1 ∧ b' = 0) := by
  refine ⟨h.1.2.2.1, ?_, ?_, ?_⟩
  · intro ep' em' m' b' hopt
    have hub : ladObj 2 ep' em' ≤ 1 := by
      have := hopt.2 ![1/2, 0] ![0, 1/2] ![0] (-1/2) lad_concrete_point_optimal.1
      calc ladObj 2 ep' em' ≤ ladObj 2 ![1/2, 0] ![0, 1/2] := this
        _ = 1 := by simp [ladObj, Fin.sum_univ_two]; norm_num
    have hlb := lad_concrete_bound ep' em' m' b' hopt.1
    have hm0 := hopt.1.2.2.1 0
    constructor
    · linarith
    · linarith
  · simp [ladTextObj, ladX, ladY, Fin.sum_univ_one, Fin.sum_univ_two]
  · intro m' b' htext
    have hle := htext ![-1] 0
    simp [ladTextObj, ladX, ladY, Fin.sum_univ_one, Fin.sum_univ_two] at hle
    have ha : (0 : ℚ) ≤ |b'| := abs_nonneg _
    have hc : (0 : ℚ) ≤ |(-1 - m' 0 - b')| := abs_nonneg _
    have hb0 : b' = 0 := abs_eq_zero.mp (le_antisymm (by linarith) ha)
    have hc0 : -1 - m' 0 - b' = 0 := abs_eq_zero.mp (le_antisymm (by linarith) hc)
    constructor <;> linarith

/-- Witness for `lad_slopes_nonneg_and_diverge` at the optimal solution of
the two-point instance. -/
theorem lad_slopes_nonneg_and_diverge_witness :
    (0 : ℚ) ≤ (![0] : Fin 1 → ℚ) 0 :=
  (lad_slopes_nonneg_and_diverge 2 1 ladX ladY ![1/2, 0] ![0, 1/2] ![0] (-1/2)
    lad_concrete_point_optimal).1 0

end MoBook
